import Mathlib

/-!
Shallow embedding of `oxidecomputer/yubihsm-split` (files `src/lib.rs` and
`src/config.rs`) and proofs about the spec's claims.

External collaborators (the yubihsm client, the filesystem, the operator
terminal, spawned processes, and the rusty_secrets codec) are modelled as
oracles: total functions supplied as parameters whose `Except` results decide
whether each call succeeds.  Every modelled function also produces a trace of
the externally visible events it performed, in program order, so that temporal
claims (ordering of HSM mutations, zeroization, process termination) can be
stated over the trace.
-/

namespace YubihsmSplit

/-! ## Embedding of yubihsm crate types used by the source -/

/-- Embeds `yubihsm::object::Type` (only the variants the source uses). -/
inductive ObjType where
  | AuthenticationKey
  | AsymmetricKey
  | WrapKey
deriving DecidableEq, Repr

/-- Embeds `yubihsm::Domain` values used by the source: `Domain::all()` and
`Domain::DOM1`. -/
inductive Domain where
  | all
  | DOM1
deriving DecidableEq, Repr

/-- Embeds `yubihsm::Capability` values used by the source: only `Capability::all()`. -/
inductive Capability where
  | all
deriving DecidableEq, Repr

/-- Embeds `yubihsm::asymmetric::Algorithm` variants used by the source. -/
inductive AsymAlgorithm where
  | Rsa4096
  | EcP384
deriving DecidableEq, Repr

/-- Embeds `yubihsm::wrap::Algorithm` variant used by the source. -/
inductive WrapAlgorithm where
  | Aes256Ccm
deriving DecidableEq, Repr

/-- Embeds `yubihsm::object::Label`: a label of at most 40 bytes
(`Label::from_bytes` fails on longer inputs). -/
structure Label where
  str : String
deriving DecidableEq, Repr

/-- The byte limit of the yubihsm label encoding (`LABEL_SIZE`). -/
def LABEL_SIZE : Nat := 40

/-- Embeds `yubihsm::object::Label::from_bytes`: succeeds exactly when the byte
string fits in the 40-byte label encoding. -/
def Label.from_bytes (s : String) : Option Label :=
  if s.utf8ByteSize ≤ LABEL_SIZE then some ⟨s⟩ else none

/-! ## Embedding of `src/config.rs` -/

/-- Embeds `ConfigError` from `src/config.rs` (the serde error payload of
`BadKeySpec` is dropped: only the classification matters). -/
inductive ConfigError where
  | BadLabel
  | BadCapability
  | BadKeySpec
deriving DecidableEq, Repr

/-- Embeds `OksAlgorithm` from `src/config.rs`. -/
inductive OksAlgorithm where
  | Rsa4096
  | Ecp384
deriving DecidableEq, Repr

/-- Embeds `impl From<OksAlgorithm> for asymmetric::Algorithm`. -/
def OksAlgorithm.toAsym : OksAlgorithm → AsymAlgorithm
  | .Rsa4096 => .Rsa4096
  | .Ecp384 => .EcP384

/-- Embeds `OksDomain` from `src/config.rs`. -/
inductive OksDomain where
  | DOM1
deriving DecidableEq, Repr

/-- Embeds `impl From<OksDomain> for Domain`. -/
def OksDomain.toDomain : OksDomain → Domain
  | .DOM1 => .DOM1

/-- Embeds `OksCapability` from `src/config.rs`. -/
inductive OksCapability where
  | All
deriving DecidableEq, Repr

/-- Embeds `impl From<OksCapability> for Capability`. -/
def OksCapability.toCapability : OksCapability → Capability
  | .All => .all

/-- Embeds `Hash` from `src/config.rs`. -/
inductive Hash where
  | Sha256
  | Sha384
deriving DecidableEq, Repr

/-- Embeds `Purpose` from `src/config.rs`. -/
inductive Purpose where
  | ProductionCodeSigningCA
  | DevelopmentCodeSigningCA
  | ProductionCodeSigning
  | DevelopmentCodeSigning
  | Identity
deriving DecidableEq, Repr

/-- Embeds `impl ToString for Purpose`: the openssl.cnf v3-extension section name. -/
def Purpose.toString : Purpose → String
  | .ProductionCodeSigningCA => "v3_code_signing_prod_ca"
  | .DevelopmentCodeSigningCA => "v3_code_signing_dev_ca"
  | .ProductionCodeSigning => "v3_code_signing_prod"
  | .DevelopmentCodeSigning => "v3_code_signing_dev"
  | .Identity => "v3_identity"

/-- Embeds `OksLabel` from `src/config.rs`: a plain string read off the document. -/
structure OksLabel where
  str : String
deriving DecidableEq, Repr

/-- Embeds `impl TryInto<Label> for OksLabel`: `Label::from_bytes`, mapping failure
to `ConfigError::BadLabel`. -/
def OksLabel.tryIntoLabel (l : OksLabel) : Except ConfigError Label :=
  match Label.from_bytes l.str with
  | some label => .ok label
  | none => .error .BadLabel

/-- Embeds `OksKeySpec` from `src/config.rs`: the declarative (wire) form obtained by
serde from the JSON document. -/
structure OksKeySpec where
  common_name : String
  id : Nat
  algorithm : OksAlgorithm
  capabilities : OksCapability
  domain : OksDomain
  hash : Hash
  label : OksLabel
  purpose : Purpose
deriving DecidableEq, Repr

/-- Embeds `KeySpec` from `src/config.rs`: the fully-typed internal form. -/
structure KeySpec where
  common_name : String
  id : Nat
  algorithm : AsymAlgorithm
  capabilities : Capability
  domain : Domain
  hash : Hash
  label : Label
  purpose : Purpose
deriving DecidableEq, Repr

/-- Embeds `impl TryFrom<OksKeySpec> for KeySpec`. -/
def KeySpec.tryFrom (spec : OksKeySpec) : Except ConfigError KeySpec :=
  match spec.label.tryIntoLabel with
  | .error e => .error e
  | .ok label =>
    .ok { common_name := spec.common_name
          id := spec.id
          algorithm := spec.algorithm.toAsym
          capabilities := spec.capabilities.toCapability
          domain := spec.domain.toDomain
          hash := spec.hash
          label := label
          purpose := spec.purpose }

/-- The textual content of a key-specification document, field by field: the
enum-valued fields are the raw strings appearing in the JSON and the id is the
raw (unbounded) number.  This is the shallow embedding of the input text of
`KeySpec::from_str`; well-formedness of the surrounding JSON syntax is folded
into the structure itself (a syntactically broken document is modelled by the
`malformed` flag, which serde rejects before looking at any field). -/
structure RawKeySpec where
  malformed : Bool
  common_name : String
  id : Nat
  algorithm : String
  capabilities : String
  domain : String
  hash : String
  label : String
  purpose : String
deriving DecidableEq, Repr

/-- serde's derived deserialization of the `algorithm` field: the exact
variant names of `OksAlgorithm`, anything else is an error. -/
def parseOksAlgorithm : String → Option OksAlgorithm
  | "Rsa4096" => some .Rsa4096
  | "Ecp384" => some .Ecp384
  | _ => none

/-- serde's derived deserialization of the `capabilities` field. -/
def parseOksCapability : String → Option OksCapability
  | "All" => some .All
  | _ => none

/-- serde's derived deserialization of the `domain` field. -/
def parseOksDomain : String → Option OksDomain
  | "DOM1" => some .DOM1
  | _ => none

/-- serde's derived deserialization of the `hash` field. -/
def parseHash : String → Option Hash
  | "Sha256" => some .Sha256
  | "Sha384" => some .Sha384
  | _ => none

/-- serde's derived deserialization of the `purpose` field. -/
def parsePurpose : String → Option Purpose
  | "ProductionCodeSigningCA" => some .ProductionCodeSigningCA
  | "DevelopmentCodeSigningCA" => some .DevelopmentCodeSigningCA
  | "ProductionCodeSigning" => some .ProductionCodeSigning
  | "DevelopmentCodeSigning" => some .DevelopmentCodeSigning
  | "Identity" => some .Identity
  | _ => none

/-- Embeds `serde_json::from_str::<OksKeySpec>`: fails on a malformed document, an
unknown enum value, or an `id` that does not fit the `u16` object-id type. -/
def deserializeOksKeySpec (raw : RawKeySpec) : Option OksKeySpec :=
  if raw.malformed then none
  else if raw.id ≥ 2 ^ 16 then none
  else
    match parseOksAlgorithm raw.algorithm, parseOksCapability raw.capabilities,
        parseOksDomain raw.domain, parseHash raw.hash,
        parsePurpose raw.purpose with
    | some alg, some caps, some dom, some hash, some purpose =>
      some { common_name := raw.common_name
             id := raw.id
             algorithm := alg
             capabilities := caps
             domain := dom
             hash := hash
             label := ⟨raw.label⟩
             purpose := purpose }
    | _, _, _, _, _ => none

/-- Embeds `impl FromStr for KeySpec` (`KeySpec::from_str`): serde deserialization
(failure mapped to `ConfigError::BadKeySpec`) followed by
`TryFrom<OksKeySpec>`.  A pure function: it performs no HSM interaction. -/
def KeySpec.from_str (raw : RawKeySpec) : Except ConfigError KeySpec :=
  match deserializeOksKeySpec raw with
  | none => .error .BadKeySpec
  | some spec => KeySpec.tryFrom spec

/-! ## Embedding of `src/lib.rs`

Ceremony functions are modelled as explicit state-passing functions over
oracle inputs.  Each external call site is represented by an oracle field
whose `Except` value decides whether that call succeeds; every call that
takes effect is recorded, in program order, in a trace of `Event`s. -/

/-- Embeds `HsmError` from `src/lib.rs`. -/
inductive HsmError where
  | BadDomain
  | BadLabel
  | SelfCertGenFail
  | Version
deriving DecidableEq, Repr

/-- The `anyhow::Error` of the source, classified by origin: HSM-client
(device) failures, filesystem / process I/O failures, the source's own
`HsmError` and `ConfigError` values, a `yubihsm` label-conversion failure,
and a `rusty_secrets` codec failure. -/
inductive Err where
  | device (msg : String)
  | io (msg : String)
  | hsm (e : HsmError)
  | config (e : ConfigError)
  | badLabelBytes
  | codec (msg : String)
deriving DecidableEq, Repr

/-- How a modelled function leaves the process: a normal `Result` (`ok` /
`err`), a panic (`unwrap` on a missing value), or `std::process::exit`. -/
inductive Outcome (α : Type) where
  | ok (val : α)
  | err (e : Err)
  | panicked (msg : String)
  | exited (code : Nat)
deriving DecidableEq, Repr

/-- Externally visible events, recorded in program order.  An HSM event is
recorded only when the client call succeeds (the operation took effect). -/
inductive Event where
  | getPseudoRandom (n : Nat)
  | putWrapKey (id : Nat) (label : Label) (dom : Domain) (caps : Capability)
      (delegated : Capability) (alg : WrapAlgorithm) (key : List Nat)
  | putAuthenticationKey (id : Nat) (label : String) (dom : Domain)
      (caps : Capability) (delegated : Capability)
  | deleteObject (id : Nat) (ty : ObjType)
  | exportWrapped (wrapId : Nat) (ty : ObjType) (objId : Nat)
  | generateAsymmetricKey (id : Nat) (label : Label) (dom : Domain)
      (caps : Capability) (alg : AsymAlgorithm)
  | fsWrite (path : String)
  | zeroize (buffer : String)
  | promptPassword
  | promptShare (i : Nat)
  | readLine
  | displayShare (num : Nat) (value : String)
  | clearScreen
  | spawnConnector
  | killConnector
  | commandOutput (name : String)
  | setCurrentDir (path : String)
deriving DecidableEq, Repr

/-- Constants from `src/lib.rs` (wrap-key parameters). -/
def ALG : WrapAlgorithm := .Aes256Ccm

/-- Embeds `const CAPS: Capability = Capability::all()`. -/
def CAPS : Capability := .all

/-- Embeds `const DELEGATED_CAPS: Capability = Capability::all()`. -/
def DELEGATED_CAPS : Capability := .all

/-- Embeds `const DOMAIN: Domain = Domain::all()`. -/
def DOMAIN : Domain := .all

/-- Embeds `const ID: Id = 0x1` (the wrap key's object id). -/
def ID : Nat := 1

/-- Embeds `const KEY_LEN: usize = 32`. -/
def KEY_LEN : Nat := 32

/-- Embeds `const LABEL: &str = "backup"`. -/
def LABEL : String := "backup"

/-- Embeds `const SHARES: u8 = 5`. -/
def SHARES : Nat := 5

/-- Embeds `const THRESHOLD: u8 = 3` (with `const_assert!(THRESHOLD <= SHARES)`). -/
def THRESHOLD : Nat := 3

/-- Embeds `const AUTH_DOMAINS: Domain = Domain::all()`. -/
def AUTH_DOMAINS : Domain := .all

/-- Embeds `const AUTH_CAPS: Capability = Capability::all()`. -/
def AUTH_CAPS : Capability := .all

/-- Embeds `const AUTH_DELEGATED: Capability = Capability::all()`. -/
def AUTH_DELEGATED : Capability := .all

/-- Embeds `const AUTH_ID: Id = 2` (the new auth credential's object id). -/
def AUTH_ID : Nat := 2

/-- Embeds `const AUTH_LABEL: &str = "admin"`. -/
def AUTH_LABEL : String := "admin"

/-- Embeds `yubihsm::authentication::DEFAULT_AUTHENTICATION_KEY_ID` (object id 1). -/
def DEFAULT_AUTHENTICATION_KEY_ID : Nat := 1

/-- A password-derived `yubihsm::authentication::Key`
(`Key::derive_from_password` is an external KDF; only which password it was
derived from is observable to this model). -/
structure AuthKey where
  source : String
deriving DecidableEq, Repr

/-- Embeds `yubihsm::authentication::Key::derive_from_password`. -/
def Key.derive_from_password (password : String) : AuthKey := ⟨password⟩

/-- A `yubihsm::wrap::Message` as returned by `export_wrapped`; `data` is its
`serde_json` serialization (`serde_json::to_string` is total on it). -/
structure WrapMessage where
  data : String
deriving DecidableEq, Repr

/-- The HSM client capability (`yubihsm::Client`): one oracle per operation
the source consumes.  Each returns `Except Err` deciding success of that
call. -/
structure Client where
  get_pseudo_random : Nat → Except Err (List Nat)
  put_wrap_key : Nat → Label → Domain → Capability → Capability →
    WrapAlgorithm → List Nat → Except Err Nat
  put_authentication_key : Nat → String → Domain → Capability → Capability →
    AuthKey → Except Err Unit
  delete_object : Nat → ObjType → Except Err Unit
  export_wrapped : Nat → ObjType → Nat → Except Err WrapMessage
  generate_asymmetric_key : Nat → Label → Domain → Capability →
    AsymAlgorithm → Except Err Nat

/-- The filesystem visible to the ceremonies: a map from path to contents,
plus the set of paths on which the OS reports a write error.  `fs::write`
never consults existing contents: it creates or truncates. -/
structure Fs where
  files : List (String × String)
  failWrites : List String
deriving DecidableEq, Repr

/-- Embeds `std::fs::write`: fails only where the OS fails; otherwise replaces any
previous contents at the path (create/truncate semantics, no existence
check). -/
def Fs.write (fs : Fs) (path contents : String) : Except Err Fs :=
  if fs.failWrites.contains path then .error (.io path)
  else .ok { fs with
             files := (path, contents) :: fs.files.filter (fun e => e.1 != path) }

/-- Look up a file's contents. -/
def Fs.read (fs : Fs) (path : String) : Option String :=
  fs.files.lookup path

/-- The password prompt loop at the top of `personalize`
(`src/lib.rs` lines 456-465): prompt twice per iteration, loop on mismatch
(neither buffer zeroized), and on a match zeroize the second buffer and
yield the first.  `entries` is the sequence of operator entries;
`rpassword::prompt_password` yields an empty string once the stream is
exhausted (so two exhausted reads match and the loop ends). -/
def passwordLoop : List String → String × List Event
  | [] => ("", [.promptPassword, .promptPassword, .zeroize "password2"])
  | [p1] =>
    if p1 = "" then ("", [.promptPassword, .promptPassword, .zeroize "password2"])
    else
      ("", [.promptPassword, .promptPassword, .promptPassword,
            .promptPassword, .zeroize "password2"])
  | p1 :: p2 :: rest =>
    if p1 = p2 then (p1, [.promptPassword, .promptPassword, .zeroize "password2"])
    else
      let (pw, tr) := passwordLoop rest
      (pw, .promptPassword :: .promptPassword :: tr)

/-- Embeds `personalize` (`src/lib.rs` lines 449-508): prompt for a password,
derive an auth key from it, install it as object `AUTH_ID`, delete the
factory-default auth key, export the new key under the wrap key, write the
wrapped export to `<out_dir>/admin.json`, and zeroize the password buffer.
Returns the outcome, the event trace and the resulting filesystem. -/
def personalize (client : Client) (wrap_id : Nat) (out_dir : String) (fs : Fs)
    (pwEntries : List String) : Outcome Unit × List Event × Fs :=
  let (password, tr0) := passwordLoop pwEntries
  let auth_key := Key.derive_from_password password
  match client.put_authentication_key AUTH_ID AUTH_LABEL AUTH_DOMAINS
      AUTH_CAPS AUTH_DELEGATED auth_key with
  | .error e => (.err e, tr0, fs)
  | .ok _ =>
    let tr1 := tr0 ++
      [.putAuthenticationKey AUTH_ID AUTH_LABEL AUTH_DOMAINS AUTH_CAPS
        AUTH_DELEGATED]
    match client.delete_object DEFAULT_AUTHENTICATION_KEY_ID
        .AuthenticationKey with
    | .error e => (.err e, tr1, fs)
    | .ok _ =>
      let tr2 := tr1 ++
        [.deleteObject DEFAULT_AUTHENTICATION_KEY_ID .AuthenticationKey]
      match client.export_wrapped wrap_id .AuthenticationKey AUTH_ID with
      | .error e => (.err e, tr2, fs)
      | .ok msg =>
        let tr3 := tr2 ++ [.exportWrapped wrap_id .AuthenticationKey AUTH_ID]
        let path := out_dir ++ "/" ++ AUTH_LABEL ++ ".json"
        match fs.write path msg.data with
        | .error e => (.err e, tr3, fs)
        | .ok fs2 =>
          (.ok (), tr3 ++ [.fsWrite path, .zeroize "password"], fs2)

/-- The share-collection loop of `restore` (`src/lib.rs` lines 332-335):
`count` prompts left, numbered from `start`.  Each iteration prints the
prompt then reads via `io::stdin().lines().next().unwrap()`: an exhausted
stream makes `next()` yield `None` and the `unwrap` panic (`none` result). -/
def collectShares (start count : Nat) (stdin : List String) :
    Option (List String × List String) × List Event :=
  match count with
  | 0 => (some ([], stdin), [])
  | n + 1 =>
    match stdin with
    | [] => (none, [.promptShare start])
    | line :: rest =>
      match collectShares (start + 1) n rest with
      | (none, tr) => (none, .promptShare start :: .readLine :: tr)
      | (some (shares, remaining), tr) =>
        (some (line :: shares, remaining), .promptShare start :: .readLine :: tr)

/-- Embeds `restore` (`src/lib.rs` lines 329-369): collect `THRESHOLD` shares from
stdin, echo them, run `rusty_secrets::recover_secret` over exactly the
collected shares (`std::process::exit(1)` on failure), then install the
recovered bytes as the wrap key.  `recover_secret` is the external codec
oracle. -/
def restore (client : Client) (stdin : List String)
    (recover_secret : List String → Except String (List Nat)) :
    Outcome Unit × List Event :=
  match collectShares 1 THRESHOLD stdin with
  | (none, tr) => (.panicked "stdin", tr)
  | (some (shares, _), tr) =>
    match recover_secret shares with
    | .error _ => (.exited 1, tr)
    | .ok wrap_key =>
      match Label.from_bytes LABEL with
      | none => (.err .badLabelBytes, tr)
      | some label =>
        match client.put_wrap_key ID label DOMAIN CAPS DELEGATED_CAPS ALG
            wrap_key with
        | .error e => (.err e, tr)
        | .ok _ =>
          (.ok (),
           tr ++ [.putWrapKey ID label DOMAIN CAPS DELEGATED_CAPS ALG wrap_key])

/-- Embeds `wait_for_line` (`src/lib.rs` lines 519-521):
`io::stdin().lines().next().unwrap()` — consumes one line, panicking when
the stream is exhausted.  Returns the outcome and the remaining stream. -/
def wait_for_line (stdin : List String) : Outcome Unit × List String :=
  match stdin with
  | [] => (.panicked "stdin", [])
  | _ :: rest => (.ok (), rest)

/-- The share-display loop of `initialize` (`src/lib.rs` lines 427-442).
Per share, in order: custodian prompt, `wait_for_line`, display the share,
recording prompt, `wait_for_line`, `clear_screen`.  `num` is the 1-based
number of the next share. -/
def displayLoop (num : Nat) (shares stdin : List String) :
    Outcome Unit × List Event × List String :=
  match shares with
  | [] => (.ok (), [], stdin)
  | share :: rest =>
    match stdin with
    | [] => (.panicked "stdin", [], [])
    | _ :: stdin1 =>
      match stdin1 with
      | [] => (.panicked "stdin", [.readLine, .displayShare num share], [])
      | _ :: stdin2 =>
        match displayLoop (num + 1) rest stdin2 with
        | (out, tr, stdinF) =>
          (out,
           [.readLine, .displayShare num share, .readLine, .clearScreen] ++ tr,
           stdinF)

/-- Embeds `initialize` (`src/lib.rs` lines 377-445): obtain `KEY_LEN` random bytes
from the HSM, install them as the wrap key, run `personalize` under that
wrap key, split the wrap-key bytes with
`rusty_secrets::generate_shares(THRESHOLD, SHARES, ..)` (the external codec
oracle `generate_shares`), then after an acknowledgment gate and screen
clear display each share in the display loop. -/
def initializeCeremony (client : Client) (out_dir : String) (fs : Fs)
    (pwEntries : List String) (stdin : List String)
    (generate_shares : Nat → Nat → List Nat → Except String (List String)) :
    Outcome Unit × List Event × Fs :=
  match client.get_pseudo_random KEY_LEN with
  | .error e => (.err e, [], fs)
  | .ok wrap_key =>
    let tr0 := [Event.getPseudoRandom KEY_LEN]
    match Label.from_bytes LABEL with
    | none => (.err .badLabelBytes, tr0, fs)
    | some label =>
      match client.put_wrap_key ID label DOMAIN CAPS DELEGATED_CAPS ALG
          wrap_key with
      | .error e => (.err e, tr0, fs)
      | .ok id =>
        let tr1 := tr0 ++
          [Event.putWrapKey ID label DOMAIN CAPS DELEGATED_CAPS ALG wrap_key]
        match personalize client id out_dir fs pwEntries with
        | (.err e, trP, fs2) => (.err e, tr1 ++ trP, fs2)
        | (.panicked m, trP, fs2) => (.panicked m, tr1 ++ trP, fs2)
        | (.exited c, trP, fs2) => (.exited c, tr1 ++ trP, fs2)
        | (.ok _, trP, fs2) =>
          let tr2 := tr1 ++ trP
          match generate_shares THRESHOLD SHARES wrap_key with
          | .error e => (.err (.codec e), tr2, fs2)
          | .ok shares =>
            match wait_for_line stdin with
            | (.panicked m, _) => (.panicked m, tr2, fs2)
            | (_, stdin1) =>
              let tr3 := tr2 ++ [Event.readLine, Event.clearScreen]
              match displayLoop 1 shares stdin1 with
              | (out, trD, _) => (out, tr3 ++ trD, fs2)

/-- Embeds `generate` (`src/lib.rs` lines 50-92): read and validate the key spec
(`spec_read` embeds `fs::read_to_string` of the spec document, yielding its
textual content), generate the asymmetric key, export it under the wrap key
and write the serialized export to `<out_dir>/<label>.json` with
`fs::write`. -/
def generate (client : Client) (spec_read : Except Err RawKeySpec)
    (wrap_id : Nat) (out_dir : String) (fs : Fs) :
    Outcome Unit × List Event × Fs :=
  match spec_read with
  | .error e => (.err e, [], fs)
  | .ok raw =>
    match KeySpec.from_str raw with
    | .error e => (.err (.config e), [], fs)
    | .ok spec =>
      match client.generate_asymmetric_key spec.id spec.label spec.domain
          spec.capabilities spec.algorithm with
      | .error e => (.err e, [], fs)
      | .ok kid =>
        let tr1 := [Event.generateAsymmetricKey spec.id spec.label spec.domain
          spec.capabilities spec.algorithm]
        match client.export_wrapped wrap_id .AsymmetricKey kid with
        | .error e => (.err e, tr1, fs)
        | .ok msg =>
          let tr2 := tr1 ++ [Event.exportWrapped wrap_id .AsymmetricKey kid]
          let path := out_dir ++ "/" ++ spec.label.str ++ ".json"
          match fs.write path msg.data with
          | .error e => (.err e, tr2, fs)
          | .ok fs2 => (.ok (), tr2 ++ [Event.fsWrite path], fs2)

/-- The result of `std::process::Command::output()`: exit status success flag
and captured stderr. -/
structure CmdOutput where
  success : Bool
  stderr : String
deriving DecidableEq, Repr

/-- Oracles for `ca_init`'s external effects: reading the spec document,
`std::env::current_dir`, the filesystem work of `bootstrap_ca`
(`src/lib.rs` lines 252-317: directory tree, index.txt, serial, openssl.cnf
— pure filesystem creation, abstracted as one fallible step since nothing
later observes it), `set_current_dir`, spawning `yubihsm-connector`, the
two `openssl` invocations' `output()` calls, and `Child::kill`. -/
structure CaEnv where
  read_spec : Except Err RawKeySpec
  current_dir : Except Err Unit
  bootstrap_ca : Except Err Unit
  set_current_dir : String → Except Err Unit
  spawn_connector : Except Err Unit
  output_req : Except Err CmdOutput
  output_ca : Except Err CmdOutput
  kill : Except Err Unit

/-- Embeds `ca_init` (`src/lib.rs` lines 164-249): validate the spec, save the
current directory, bootstrap the CA tree, change into the CA directory,
spawn the connector, run `openssl req` then `openssl ca -selfsign` (killing
the connector and failing with `SelfCertGenFail` when either exits
non-zero), kill the connector, and change back to the saved directory.
Returns the outcome, the trace and the final process working directory
(initially `cwd0`; a failed `set_current_dir` leaves it unchanged). -/
def ca_init (env : CaEnv) (cwd0 : String) (out : String) :
    Outcome Unit × List Event × String :=
  match env.read_spec with
  | .error e => (.err e, [], cwd0)
  | .ok raw =>
    match KeySpec.from_str raw with
    | .error e => (.err (.config e), [], cwd0)
    | .ok spec =>
      match env.current_dir with
      | .error e => (.err e, [], cwd0)
      | .ok _ =>
        let pwd := cwd0
        match env.bootstrap_ca with
        | .error e => (.err e, [], cwd0)
        | .ok _ =>
          let ca_dir := out ++ "/" ++ spec.label.str
          match env.set_current_dir ca_dir with
          | .error e => (.err e, [], cwd0)
          | .ok _ =>
            let tr1 := [Event.setCurrentDir ca_dir]
            match env.spawn_connector with
            | .error e => (.err e, tr1, ca_dir)
            | .ok _ =>
              let tr2 := tr1 ++ [Event.spawnConnector]
              match env.output_req with
              | .error e => (.err e, tr2, ca_dir)
              | .ok outp =>
                let tr3 := tr2 ++ [Event.commandOutput "openssl req"]
                if outp.success = false then
                  match env.kill with
                  | .error e => (.err e, tr3, ca_dir)
                  | .ok _ =>
                    (.err (.hsm .SelfCertGenFail),
                     tr3 ++ [Event.killConnector], ca_dir)
                else
                  match env.output_ca with
                  | .error e => (.err e, tr3, ca_dir)
                  | .ok outp2 =>
                    let tr4 := tr3 ++ [Event.commandOutput "openssl ca"]
                    if outp2.success = false then
                      match env.kill with
                      | .error e => (.err e, tr4, ca_dir)
                      | .ok _ =>
                        (.err (.hsm .SelfCertGenFail),
                         tr4 ++ [Event.killConnector], ca_dir)
                    else
                      match env.kill with
                      | .error e => (.err e, tr4, ca_dir)
                      | .ok _ =>
                        let tr5 := tr4 ++ [Event.killConnector]
                        match env.set_current_dir pwd with
                        | .error e => (.err e, tr5, ca_dir)
                        | .ok _ =>
                          (.ok (), tr5 ++ [Event.setCurrentDir pwd], pwd)

/-! ## Helper definitions for stating the claims -/

/-- Predicate picking out share-display events. -/
def Event.isDisplayShare : Event → Bool
  | .displayShare _ _ => true
  | _ => false

/-- Predicate picking out working-directory changes. -/
def Event.isSetCurrentDir : Event → Bool
  | .setCurrentDir _ => true
  | _ => false

/-- The display events for `shares` numbered consecutively from `num`:
share `i` (1-based, when `num = 1`) displayed exactly once, in order. -/
def numberedShares (num : Nat) : List String → List Event
  | [] => []
  | s :: rest => Event.displayShare num s :: numberedShares (num + 1) rest

/-- The trace of a completed share-collection loop: `count` prompt/read
pairs numbered consecutively from `start`. -/
def sharePromptTrace (start count : Nat) : List Event :=
  match count with
  | 0 => []
  | n + 1 => .promptShare start :: .readLine :: sharePromptTrace (start + 1) n

/-- An empty filesystem on which every write succeeds. -/
def fs0 : Fs := { files := [], failWrites := [] }

/-- An HSM client on which every operation succeeds. -/
def allOkClient : Client where
  get_pseudo_random := fun n => .ok (List.replicate n 0)
  put_wrap_key := fun _ _ _ _ _ _ _ => .ok ID
  put_authentication_key := fun _ _ _ _ _ _ => .ok ()
  delete_object := fun _ _ => .ok ()
  export_wrapped := fun _ _ _ => .ok ⟨"wrapped"⟩
  generate_asymmetric_key := fun _ _ _ _ _ => .ok 3

/-- An HSM client on which everything succeeds except `export_wrapped`. -/
def exportFailClient : Client :=
  { allOkClient with export_wrapped := fun _ _ _ => .error (.device "export failed") }

/-- The well-formed RSA-4096 / ProductionCodeSigning key-specification
document of the source's `JSON_RSA4K` test vector. -/
def rsa4kRaw : RawKeySpec where
  malformed := false
  common_name := "Gimlet RoT Stage0 Code Signing Engineering Offline CA A"
  id := 1
  algorithm := "Rsa4096"
  capabilities := "All"
  domain := "DOM1"
  hash := "Sha256"
  label := "rot-stage0-signing-root-eng-a"
  purpose := "ProductionCodeSigning"

/-- A small well-formed key-specification document with label `foo`. -/
def fooRaw : RawKeySpec where
  malformed := false
  common_name := "cn"
  id := 1
  algorithm := "Rsa4096"
  capabilities := "All"
  domain := "DOM1"
  hash := "Sha256"
  label := "foo"
  purpose := "Identity"

/-- A filesystem already holding an artifact at `out/foo.json`. -/
def fsPre : Fs := { files := [("out/foo.json", "OLD")], failWrites := [] }

/-- A secret-sharing oracle that always yields five concrete shares. -/
def okShares : Nat → Nat → List Nat → Except String (List String) :=
  fun _ _ _ => .ok ["s1", "s2", "s3", "s4", "s5"]

/-- Eleven lines of operator input: enough for every acknowledgment gate of
the initialize ceremony with five shares. -/
def stdin11 : List String := List.replicate 11 ""

/-- A successful command result. -/
def okOut : CmdOutput := { success := true, stderr := "" }

/-- A `ca_init` environment in which every external step succeeds. -/
def caEnvBase : CaEnv where
  read_spec := .ok fooRaw
  current_dir := .ok ()
  bootstrap_ca := .ok ()
  set_current_dir := fun _ => .ok ()
  spawn_connector := .ok ()
  output_req := .ok okOut
  output_ca := .ok okOut
  kill := .ok ()

/-- A `ca_init` environment in which obtaining the first `openssl` command's
output fails with an I/O error (after the connector was spawned). -/
def caEnvReqIoErr : CaEnv := { caEnvBase with output_req := .error (.io "pipe") }

/-- The validated form of `fooRaw`. -/
def fooSpec : KeySpec where
  common_name := "cn"
  id := 1
  algorithm := .Rsa4096
  capabilities := .all
  domain := .DOM1
  hash := .Sha256
  label := ⟨"foo"⟩
  purpose := .Identity

/-! ## Lemmas about the share-collection loop -/

/-- When the input stream is shorter than the number of prompts, the
collection loop hits `None` from `lines().next()` (the `unwrap` panics). -/
theorem collectShares_short (count : Nat) :
    ∀ (start : Nat) (stdin : List String), stdin.length < count →
      (collectShares start count stdin).1 = none := by
  induction count with
  | zero => exact fun start stdin h => absurd h (Nat.not_lt_zero _)
  | succ n ih =>
    intro start stdin h
    cases stdin with
    | nil => simp [collectShares]
    | cons line rest =>
      have hr : rest.length < n := by simpa using h
      have hnone := ih (start + 1) rest hr
      simp only [collectShares]
      cases hc : collectShares (start + 1) n rest with
      | mk fst tr =>
        rw [hc] at hnone
        simp only at hnone
        subst hnone
        simp

/-- When the input stream is long enough, the collection loop reads exactly
`count` lines: the collected shares are `stdin.take count`, the rest of the
stream is untouched, and the trace is `count` prompt/read pairs. -/
theorem collectShares_complete (count : Nat) :
    ∀ (start : Nat) (stdin : List String), count ≤ stdin.length →
      collectShares start count stdin =
        (some (stdin.take count, stdin.drop count),
         sharePromptTrace start count) := by
  induction count with
  | zero => intro start stdin _; simp [collectShares, sharePromptTrace]
  | succ n ih =>
    intro start stdin h
    cases stdin with
    | nil => simp at h
    | cons line rest =>
      have hr : n ≤ rest.length := by simpa using h
      simp only [collectShares, sharePromptTrace]
      rw [ih (start + 1) rest hr]
      simp

/-! ## Claim theorems -/

/-- C5: `KeySpec::from_str` is a total classifier: a document that serde
rejects (malformed structure, unknown enum value, out-of-range id) yields
exactly `ConfigError::BadKeySpec`; a deserialized document whose label
exceeds the 40-byte HSM label encoding yields exactly
`ConfigError::BadLabel`; otherwise it yields the fully-typed `KeySpec`
whose every field is the unique mapping of the declarative value (no
partial `KeySpec`).  `KeySpec.from_str` is a pure function of its input:
no HSM interaction can occur. -/
theorem keyspec_from_str_classified (raw : RawKeySpec) :
    (match deserializeOksKeySpec raw with
     | none => KeySpec.from_str raw = .error .BadKeySpec
     | some oks =>
       if oks.label.str.utf8ByteSize ≤ LABEL_SIZE then
         KeySpec.from_str raw = .ok
           { common_name := oks.common_name
             id := oks.id
             algorithm := oks.algorithm.toAsym
             capabilities := oks.capabilities.toCapability
             domain := oks.domain.toDomain
             hash := oks.hash
             label := ⟨oks.label.str⟩
             purpose := oks.purpose }
       else KeySpec.from_str raw = .error .BadLabel) := by
  unfold KeySpec.from_str
  cases h : deserializeOksKeySpec raw with
  | none => simp
  | some oks =>
    simp only
    unfold KeySpec.tryFrom OksLabel.tryIntoLabel Label.from_bytes
    by_cases hl : oks.label.str.utf8ByteSize ≤ LABEL_SIZE
    · simp [hl]
    · simp [hl]

/-- C8: the RSA-4096 / ProductionCodeSigning document validates to the
`KeySpec` carrying the HSM `Rsa4096` algorithm value and the
`ProductionCodeSigning` purpose, whose section-name string is exactly
`v3_code_signing_prod`; and each of the five purpose values maps to
exactly one section-name string. -/
theorem keyspec_rsa4096_production_code_signing :
    KeySpec.from_str rsa4kRaw = .ok
      { common_name := "Gimlet RoT Stage0 Code Signing Engineering Offline CA A"
        id := 1
        algorithm := .Rsa4096
        capabilities := .all
        domain := .DOM1
        hash := .Sha256
        label := ⟨"rot-stage0-signing-root-eng-a"⟩
        purpose := .ProductionCodeSigning } ∧
    Purpose.toString .ProductionCodeSigning = "v3_code_signing_prod" ∧
    Purpose.toString .ProductionCodeSigningCA = "v3_code_signing_prod_ca" ∧
    Purpose.toString .DevelopmentCodeSigningCA = "v3_code_signing_dev_ca" ∧
    Purpose.toString .DevelopmentCodeSigning = "v3_code_signing_dev" ∧
    Purpose.toString .Identity = "v3_identity" := by
  refine ⟨?_, rfl, rfl, rfl, rfl, rfl⟩
  rfl

/-- C9: when the operator input stream is exhausted before all prompts are
answered, the restore share-collection loop and the acknowledgment gate
`wait_for_line` end in a panic (an `unwrap` of `None`), not in a classified
error value. -/
theorem restore_and_wait_for_line_panic_on_eof (client : Client)
    (stdin : List String)
    (recover_secret : List String → Except String (List Nat))
    (h : stdin.length < THRESHOLD) :
    (restore client stdin recover_secret).1 = .panicked "stdin" ∧
    (wait_for_line []).1 = .panicked "stdin" := by
  refine ⟨?_, rfl⟩
  unfold restore
  have hnone := collectShares_short THRESHOLD 1 stdin h
  cases hc : collectShares 1 THRESHOLD stdin with
  | mk fst tr =>
    rw [hc] at hnone
    simp only at hnone
    subst hnone
    simp

/-- Witness for C9 at the empty input stream. -/
theorem restore_and_wait_for_line_panic_on_eof_witness :
    ([] : List String).length < THRESHOLD ∧
    ((restore allOkClient []
        (fun _ => .error "bad")).1 = .panicked "stdin" ∧
      (wait_for_line []).1 = .panicked "stdin") :=
  ⟨by decide,
   restore_and_wait_for_line_panic_on_eof allOkClient []
     (fun _ => .error "bad") (by decide)⟩

/-- C3: the restore ceremony prompts for exactly `THRESHOLD = 3` shares,
passes exactly the three collected lines to
`rusty_secrets::recover_secret`, and on a recovery failure terminates the
process (`exit 1`) with the trace showing the three prompt/read pairs and
nothing else — in particular no wrap-key installation and no other HSM
mutation. -/
theorem restore_recovery_failure_no_hsm_mutation (client : Client)
    (stdin : List String)
    (recover_secret : List String → Except String (List Nat)) (msg : String)
    (hlen : THRESHOLD ≤ stdin.length)
    (hrec : recover_secret (stdin.take THRESHOLD) = .error msg) :
    restore client stdin recover_secret =
      (.exited 1,
       [.promptShare 1, .readLine, .promptShare 2, .readLine,
        .promptShare 3, .readLine]) := by
  unfold restore
  rw [collectShares_complete THRESHOLD 1 stdin hlen]
  simp only [hrec]
  rfl

/-- Witness for C3: three entered shares the codec rejects. -/
theorem restore_recovery_failure_no_hsm_mutation_witness :
    (THRESHOLD ≤ (["a", "b", "c"] : List String).length ∧
      (fun (_ : List String) => (Except.error "bad" : Except String (List Nat)))
        ((["a", "b", "c"] : List String).take THRESHOLD) = .error "bad") ∧
    restore allOkClient ["a", "b", "c"] (fun _ => .error "bad") =
      (.exited 1,
       [.promptShare 1, .readLine, .promptShare 2, .readLine,
        .promptShare 3, .readLine]) :=
  ⟨⟨by decide, rfl⟩,
   restore_recovery_failure_no_hsm_mutation allOkClient ["a", "b", "c"]
     (fun _ => .error "bad") "bad" (by decide) rfl⟩

/-- C1 (code bug): in `personalize` the factory-default credential is
deleted BEFORE the export of the new credential.  With a client on which
the export fails, the run ends in that error yet the trace already holds
the delete of object 1 (the factory-default auth key) — the default
credential is not left intact; and even on a fully successful run the
delete event strictly precedes the export event. -/
theorem personalize_deletes_default_before_export :
    personalize exportFailClient ID "out" fs0 ["pw", "pw"] =
      (.err (.device "export failed"),
       [.promptPassword, .promptPassword, .zeroize "password2",
        .putAuthenticationKey AUTH_ID AUTH_LABEL AUTH_DOMAINS AUTH_CAPS
          AUTH_DELEGATED,
        .deleteObject DEFAULT_AUTHENTICATION_KEY_ID .AuthenticationKey],
       fs0) ∧
    (personalize allOkClient ID "out" fs0 ["pw", "pw"]).2.1.indexOf
        (.deleteObject DEFAULT_AUTHENTICATION_KEY_ID .AuthenticationKey) <
      (personalize allOkClient ID "out" fs0 ["pw", "pw"]).2.1.indexOf
        (.exportWrapped ID .AuthenticationKey AUTH_ID) := by
  exact ⟨rfl, by decide⟩

/-- C2 (code bug): the in-memory wrap-key bytes are never zeroized — even a
fully successful initialize run's trace holds no `zeroize "wrap_key"`
event (the source carries a `TODO: zeroize`) — and the password buffer is
zeroized only on the success path of `personalize`: on the failing-export
path the run ends in an error with no `zeroize "password"` event. -/
theorem initialize_missing_zeroization :
    (initializeCeremony allOkClient "out" fs0 ["pw", "pw"] stdin11
        okShares).1 = .ok () ∧
    Event.zeroize "wrap_key" ∉
      (initializeCeremony allOkClient "out" fs0 ["pw", "pw"] stdin11
        okShares).2.1 ∧
    (personalize exportFailClient ID "out" fs0 ["pw", "pw"]).1 =
      .err (.device "export failed") ∧
    Event.zeroize "password" ∉
      (personalize exportFailClient ID "out" fs0 ["pw", "pw"]).2.1 := by
  refine ⟨rfl, by decide, rfl, by decide⟩

/-- C6 (counterexample): invoking `generate` with an output directory that
already holds `foo.json` is NOT reported as an error and asks for no
confirmation: the run succeeds and the pre-existing artifact's contents
are silently replaced by the new export. -/
theorem generate_overwrites_preexisting_artifact :
    fsPre.read "out/foo.json" = some "OLD" ∧
    (generate allOkClient (.ok fooRaw) ID "out" fsPre).1 = .ok () ∧
    (generate allOkClient (.ok fooRaw) ID "out" fsPre).2.2.read
      "out/foo.json" = some "wrapped" :=
  ⟨rfl, rfl, rfl⟩

/-- C6 (amended): when reading, validation, generation and export all
succeed and the OS accepts the write, `generate` succeeds regardless of a
pre-existing `<label>.json` and leaves the newly exported contents at that
path: `fs::write` create/truncate semantics, no error, no confirmation. -/
theorem generate_silent_overwrite (client : Client) (raw : RawKeySpec)
    (wrap_id : Nat) (out_dir : String) (fs : Fs) (spec : KeySpec) (kid : Nat)
    (msg : WrapMessage) (old : String)
    (hspec : KeySpec.from_str raw = .ok spec)
    (hgen : client.generate_asymmetric_key spec.id spec.label spec.domain
      spec.capabilities spec.algorithm = .ok kid)
    (hexp : client.export_wrapped wrap_id .AsymmetricKey kid = .ok msg)
    (hfail : fs.failWrites.contains
      (out_dir ++ "/" ++ spec.label.str ++ ".json") = false)
    (hold : fs.read (out_dir ++ "/" ++ spec.label.str ++ ".json") = some old) :
    (generate client (.ok raw) wrap_id out_dir fs).1 = .ok () ∧
    (generate client (.ok raw) wrap_id out_dir fs).2.2.read
      (out_dir ++ "/" ++ spec.label.str ++ ".json") = some msg.data := by
  unfold generate
  simp only [hspec, hgen, hexp]
  unfold Fs.write
  simp only [hfail, Bool.false_eq_true, if_false]
  refine ⟨trivial, ?_⟩
  unfold Fs.read
  simp [List.lookup]

/-- Witness for the amended C6 on a concrete pre-existing artifact. -/
theorem generate_silent_overwrite_witness :
    (KeySpec.from_str fooRaw = .ok fooSpec ∧
      allOkClient.generate_asymmetric_key fooSpec.id fooSpec.label
        fooSpec.domain fooSpec.capabilities fooSpec.algorithm = .ok 3 ∧
      allOkClient.export_wrapped ID .AsymmetricKey 3 = .ok ⟨"wrapped"⟩ ∧
      fsPre.failWrites.contains
        ("out" ++ "/" ++ fooSpec.label.str ++ ".json") = false ∧
      fsPre.read ("out" ++ "/" ++ fooSpec.label.str ++ ".json") =
        some "OLD") ∧
    ((generate allOkClient (.ok fooRaw) ID "out" fsPre).1 = .ok () ∧
      (generate allOkClient (.ok fooRaw) ID "out" fsPre).2.2.read
        ("out" ++ "/" ++ fooSpec.label.str ++ ".json") =
        some (WrapMessage.mk "wrapped").data) :=
  ⟨⟨rfl, rfl, rfl, rfl, rfl⟩,
   generate_silent_overwrite allOkClient fooRaw ID "out" fsPre fooSpec 3
     ⟨"wrapped"⟩ "OLD" rfl rfl rfl rfl rfl⟩

/-! ## Lemmas about ca_init (connector lifecycle and working directory) -/

/-- In every run of `ca_init` the connector is spawned at most once. -/
theorem ca_init_spawn_once (env : CaEnv) (cwd0 out : String) :
    (ca_init env cwd0 out).2.1.count Event.spawnConnector ≤ 1 := by
  unfold ca_init
  cases hrs : env.read_spec with
  | error e => simp [hrs]
  | ok raw =>
    simp only [hrs]
    cases hks : KeySpec.from_str raw with
    | error e => simp [hks]
    | ok spec =>
      simp only [hks]
      cases hcd : env.current_dir with
      | error e => simp [hcd]
      | ok u =>
        simp only [hcd]
        cases hbs : env.bootstrap_ca with
        | error e => simp [hbs]
        | ok u2 =>
          simp only [hbs]
          cases hsd : env.set_current_dir (out ++ "/" ++ spec.label.str) with
          | error e => simp [hsd]
          | ok u3 =>
            simp only [hsd]
            cases hsp : env.spawn_connector with
            | error e => simp [hsp, List.count_cons]
            | ok u4 =>
              simp only [hsp]
              cases hor : env.output_req with
              | error e => simp [hor, List.count_cons]
              | ok outp =>
                simp only [hor]
                obtain ⟨suc, sderr⟩ := outp
                cases suc with
                | false =>
                  simp only []
                  cases hk : env.kill with
                  | error e => simp [hk, List.count_cons]
                  | ok u5 => simp [hk, List.count_cons]
                | true =>
                  simp only []
                  cases hoc : env.output_ca with
                  | error e => simp [hoc, List.count_cons]
                  | ok outp2 =>
                    simp only [hoc]
                    obtain ⟨suc2, sderr2⟩ := outp2
                    cases suc2 with
                    | false =>
                      cases hk : env.kill with
                      | error e => simp [hk, List.count_cons]
                      | ok u5 => simp [hk, List.count_cons]
                    | true =>
                      cases hk : env.kill with
                      | error e => simp [hk, List.count_cons]
                      | ok u5 =>
                        simp only [hk]
                        cases hsd2 : env.set_current_dir cwd0 with
                        | error e => simp [hsd2, List.count_cons]
                        | ok u6 => simp [hsd2, List.count_cons]

/-- On the success path of `ca_init` the connector was killed. -/
theorem ca_init_success_kills (env : CaEnv) (cwd0 out : String) :
    (ca_init env cwd0 out).1 = .ok () →
      Event.killConnector ∈ (ca_init env cwd0 out).2.1 := by
  unfold ca_init
  cases hrs : env.read_spec with
  | error e => simp [hrs]
  | ok raw =>
    simp only [hrs]
    cases hks : KeySpec.from_str raw with
    | error e => simp [hks]
    | ok spec =>
      simp only [hks]
      cases hcd : env.current_dir with
      | error e => simp [hcd]
      | ok u =>
        simp only [hcd]
        cases hbs : env.bootstrap_ca with
        | error e => simp [hbs]
        | ok u2 =>
          simp only [hbs]
          cases hsd : env.set_current_dir (out ++ "/" ++ spec.label.str) with
          | error e => simp [hsd]
          | ok u3 =>
            simp only [hsd]
            cases hsp : env.spawn_connector with
            | error e => simp [hsp]
            | ok u4 =>
              simp only [hsp]
              cases hor : env.output_req with
              | error e => simp [hor]
              | ok outp =>
                simp only [hor]
                obtain ⟨suc, sderr⟩ := outp
                cases suc with
                | false =>
                  cases hk : env.kill with
                  | error e => simp [hk]
                  | ok u5 => simp [hk]
                | true =>
                  cases hoc : env.output_ca with
                  | error e => simp [hoc]
                  | ok outp2 =>
                    simp only [hoc]
                    obtain ⟨suc2, sderr2⟩ := outp2
                    cases suc2 with
                    | false =>
                      cases hk : env.kill with
                      | error e => simp [hk]
                      | ok u5 => simp [hk]
                    | true =>
                      cases hk : env.kill with
                      | error e => simp [hk]
                      | ok u5 =>
                        simp only [hk]
                        cases hsd2 : env.set_current_dir cwd0 with
                        | error e => simp [hsd2]
                        | ok u6 => simp [hsd2]

/-- When the first certificate-tool command exits non-zero and the kill
succeeds, the run fails with `SelfCertGenFail` after killing the
connector. -/
theorem ca_init_req_failure_kills (env : CaEnv) (cwd0 out : String)
    (raw : RawKeySpec) (spec : KeySpec) (outp : CmdOutput)
    (hrs : env.read_spec = .ok raw)
    (hks : KeySpec.from_str raw = .ok spec)
    (hcd : env.current_dir = .ok ())
    (hbs : env.bootstrap_ca = .ok ())
    (hsd : env.set_current_dir (out ++ "/" ++ spec.label.str) = .ok ())
    (hsp : env.spawn_connector = .ok ())
    (hor : env.output_req = .ok outp)
    (hsuc : outp.success = false)
    (hk : env.kill = .ok ()) :
    ca_init env cwd0 out =
      (.err (.hsm .SelfCertGenFail),
       [.setCurrentDir (out ++ "/" ++ spec.label.str), .spawnConnector,
        .commandOutput "openssl req", .killConnector],
       out ++ "/" ++ spec.label.str) := by
  unfold ca_init
  simp [hrs, hks, hcd, hbs, hsd, hsp, hor, hsuc, hk]

/-- When the second certificate-tool command exits non-zero and the kill
succeeds, the run fails with `SelfCertGenFail` after killing the
connector. -/
theorem ca_init_ca_failure_kills (env : CaEnv) (cwd0 out : String)
    (raw : RawKeySpec) (spec : KeySpec) (outp outp2 : CmdOutput)
    (hrs : env.read_spec = .ok raw)
    (hks : KeySpec.from_str raw = .ok spec)
    (hcd : env.current_dir = .ok ())
    (hbs : env.bootstrap_ca = .ok ())
    (hsd : env.set_current_dir (out ++ "/" ++ spec.label.str) = .ok ())
    (hsp : env.spawn_connector = .ok ())
    (hor : env.output_req = .ok outp)
    (hsuc : outp.success = true)
    (hoc : env.output_ca = .ok outp2)
    (hsuc2 : outp2.success = false)
    (hk : env.kill = .ok ()) :
    ca_init env cwd0 out =
      (.err (.hsm .SelfCertGenFail),
       [.setCurrentDir (out ++ "/" ++ spec.label.str), .spawnConnector,
        .commandOutput "openssl req", .commandOutput "openssl ca",
        .killConnector],
       out ++ "/" ++ spec.label.str) := by
  unfold ca_init
  simp [hrs, hks, hcd, hbs, hsd, hsp, hor, hsuc, hoc, hsuc2, hk]

/-- On success `ca_init` ends with the original working directory
restored. -/
theorem ca_init_ok_cwd (env : CaEnv) (cwd0 out : String) :
    (ca_init env cwd0 out).1 = .ok () → (ca_init env cwd0 out).2.2 = cwd0 := by
  unfold ca_init
  cases hrs : env.read_spec with
  | error e => simp [hrs]
  | ok raw =>
    simp only [hrs]
    cases hks : KeySpec.from_str raw with
    | error e => simp [hks]
    | ok spec =>
      simp only [hks]
      cases hcd : env.current_dir with
      | error e => simp [hcd]
      | ok u =>
        simp only [hcd]
        cases hbs : env.bootstrap_ca with
        | error e => simp [hbs]
        | ok u2 =>
          simp only [hbs]
          cases hsd : env.set_current_dir (out ++ "/" ++ spec.label.str) with
          | error e => simp [hsd]
          | ok u3 =>
            simp only [hsd]
            cases hsp : env.spawn_connector with
            | error e => simp [hsp]
            | ok u4 =>
              simp only [hsp]
              cases hor : env.output_req with
              | error e => simp [hor]
              | ok outp =>
                simp only [hor]
                obtain ⟨suc, sderr⟩ := outp
                cases suc with
                | false =>
                  cases hk : env.kill with
                  | error e => simp [hk]
                  | ok u5 => simp [hk]
                | true =>
                  cases hoc : env.output_ca with
                  | error e => simp [hoc]
                  | ok outp2 =>
                    simp only [hoc]
                    obtain ⟨suc2, sderr2⟩ := outp2
                    cases suc2 with
                    | false =>
                      cases hk : env.kill with
                      | error e => simp [hk]
                      | ok u5 => simp [hk]
                    | true =>
                      cases hk : env.kill with
                      | error e => simp [hk]
                      | ok u5 =>
                        simp only [hk]
                        cases hsd2 : env.set_current_dir cwd0 with
                        | error e => simp [hsd2]
                        | ok u6 => simp [hsd2]

/-- On every error exit of `ca_init` the process is left either where it
started (error before the directory change, no change in the trace) or in
the per-key CA directory (exactly one change in the trace, never the
restore). -/
theorem ca_init_err_cwd (env : CaEnv) (cwd0 out : String) :
    ∀ e, (ca_init env cwd0 out).1 = .err e →
      (((ca_init env cwd0 out).2.1.filter Event.isSetCurrentDir = []) ∧
        (ca_init env cwd0 out).2.2 = cwd0) ∨
      (∃ raw spec, env.read_spec = .ok raw ∧ KeySpec.from_str raw = .ok spec ∧
        (ca_init env cwd0 out).2.1.filter Event.isSetCurrentDir =
          [Event.setCurrentDir (out ++ "/" ++ spec.label.str)] ∧
        (ca_init env cwd0 out).2.2 = out ++ "/" ++ spec.label.str) := by
  unfold ca_init
  cases hrs : env.read_spec with
  | error e => intro e2 h2; exact Or.inl (by simp [hrs])
  | ok raw =>
    simp only [hrs]
    cases hks : KeySpec.from_str raw with
    | error e => intro e2 h2; exact Or.inl (by simp [hks])
    | ok spec =>
      simp only [hks]
      cases hcd : env.current_dir with
      | error e => intro e2 h2; exact Or.inl (by simp [hcd])
      | ok u =>
        simp only [hcd]
        cases hbs : env.bootstrap_ca with
        | error e => intro e2 h2; exact Or.inl (by simp [hbs])
        | ok u2 =>
          simp only [hbs]
          cases hsd : env.set_current_dir (out ++ "/" ++ spec.label.str) with
          | error e => intro e2 h2; exact Or.inl (by simp [hsd])
          | ok u3 =>
            simp only [hsd]
            cases hsp : env.spawn_connector with
            | error e =>
              intro e2 h2
              exact Or.inr ⟨raw, spec, rfl, hks,
                by simp [hsp, Event.isSetCurrentDir], by simp [hsp]⟩
            | ok u4 =>
              simp only [hsp]
              cases hor : env.output_req with
              | error e =>
                intro e2 h2
                exact Or.inr ⟨raw, spec, rfl, hks,
                  by simp [hor, Event.isSetCurrentDir], by simp [hor]⟩
              | ok outp =>
                simp only [hor]
                obtain ⟨suc, sderr⟩ := outp
                cases suc with
                | false =>
                  cases hk : env.kill with
                  | error e =>
                    intro e2 h2
                    exact Or.inr ⟨raw, spec, rfl, hks,
                      by simp [hk, Event.isSetCurrentDir], by simp [hk]⟩
                  | ok u5 =>
                    intro e2 h2
                    exact Or.inr ⟨raw, spec, rfl, hks,
                      by simp [hk, Event.isSetCurrentDir], by simp [hk]⟩
                | true =>
                  cases hoc : env.output_ca with
                  | error e =>
                    intro e2 h2
                    exact Or.inr ⟨raw, spec, rfl, hks,
                      by simp [hoc, Event.isSetCurrentDir], by simp [hoc]⟩
                  | ok outp2 =>
                    simp only [hoc]
                    obtain ⟨suc2, sderr2⟩ := outp2
                    cases suc2 with
                    | false =>
                      cases hk : env.kill with
                      | error e =>
                        intro e2 h2
                        exact Or.inr ⟨raw, spec, rfl, hks,
                          by simp [hk, Event.isSetCurrentDir], by simp [hk]⟩
                      | ok u5 =>
                        intro e2 h2
                        exact Or.inr ⟨raw, spec, rfl, hks,
                          by simp [hk, Event.isSetCurrentDir], by simp [hk]⟩
                    | true =>
                      cases hk : env.kill with
                      | error e =>
                        intro e2 h2
                        exact Or.inr ⟨raw, spec, rfl, hks,
                          by simp [hk, Event.isSetCurrentDir], by simp [hk]⟩
                      | ok u5 =>
                        simp only [hk]
                        cases hsd2 : env.set_current_dir cwd0 with
                        | error e =>
                          intro e2 h2
                          exact Or.inr ⟨raw, spec, rfl, hks,
                            by simp [hsd2, Event.isSetCurrentDir], by simp [hsd2]⟩
                        | ok u6 => simp [hsd2]



/-- A `ca_init` environment in which the first certificate-tool command runs
but exits with a non-zero status. -/
def caEnvReqFail : CaEnv :=
  { caEnvBase with output_req := .ok { success := false, stderr := "req err" } }

/-- C7 (counterexample): an I/O error obtaining the first `openssl`
command's output propagates through `?` after the connector was spawned:
the run ends in that error with the spawn in the trace and no kill — the
connector outlives the ceremony. -/
theorem ca_init_connector_leaked_on_output_io_error :
    (ca_init caEnvReqIoErr "/home" "out").1 = .err (.io "pipe") ∧
    Event.spawnConnector ∈ (ca_init caEnvReqIoErr "/home" "out").2.1 ∧
    Event.killConnector ∉ (ca_init caEnvReqIoErr "/home" "out").2.1 :=
  ⟨rfl, by decide, by decide⟩

/-- C7 (amended): at most one connector process is spawned per invocation,
and the connector is terminated on the success path and — provided the
kill call itself succeeds — on the two certificate-tool non-zero-exit
paths; but an exit path on which obtaining a command's output fails with
an I/O error returns with the connector still running. -/
theorem ca_init_connector_termination (env : CaEnv) (cwd0 out : String) :
    (ca_init env cwd0 out).2.1.count Event.spawnConnector ≤ 1 ∧
    ((ca_init env cwd0 out).1 = .ok () →
      Event.killConnector ∈ (ca_init env cwd0 out).2.1) ∧
    (∀ raw spec outp, env.read_spec = .ok raw →
      KeySpec.from_str raw = .ok spec →
      env.current_dir = .ok () → env.bootstrap_ca = .ok () →
      env.set_current_dir (out ++ "/" ++ spec.label.str) = .ok () →
      env.spawn_connector = .ok () → env.output_req = .ok outp →
      outp.success = false → env.kill = .ok () →
      ca_init env cwd0 out =
        (.err (.hsm .SelfCertGenFail),
         [.setCurrentDir (out ++ "/" ++ spec.label.str), .spawnConnector,
          .commandOutput "openssl req", .killConnector],
         out ++ "/" ++ spec.label.str)) ∧
    (∀ raw spec outp outp2, env.read_spec = .ok raw →
      KeySpec.from_str raw = .ok spec →
      env.current_dir = .ok () → env.bootstrap_ca = .ok () →
      env.set_current_dir (out ++ "/" ++ spec.label.str) = .ok () →
      env.spawn_connector = .ok () → env.output_req = .ok outp →
      outp.success = true → env.output_ca = .ok outp2 →
      outp2.success = false → env.kill = .ok () →
      ca_init env cwd0 out =
        (.err (.hsm .SelfCertGenFail),
         [.setCurrentDir (out ++ "/" ++ spec.label.str), .spawnConnector,
          .commandOutput "openssl req", .commandOutput "openssl ca",
          .killConnector],
         out ++ "/" ++ spec.label.str)) := by
  refine ⟨ca_init_spawn_once env cwd0 out, ca_init_success_kills env cwd0 out,
    ?_, ?_⟩
  · intro raw spec outp hrs hks hcd hbs hsd hsp hor hsuc hk
    exact ca_init_req_failure_kills env cwd0 out raw spec outp hrs hks hcd hbs
      hsd hsp hor hsuc hk
  · intro raw spec outp outp2 hrs hks hcd hbs hsd hsp hor hsuc hoc hsuc2 hk
    exact ca_init_ca_failure_kills env cwd0 out raw spec outp outp2 hrs hks hcd
      hbs hsd hsp hor hsuc hoc hsuc2 hk

/-- Witness for the amended C7: the success environment kills the
connector; a failing first certificate-tool command kills it too, with the
documented trace. -/
theorem ca_init_connector_termination_witness :
    Event.killConnector ∈ (ca_init caEnvBase "/home" "out").2.1 ∧
    ca_init caEnvReqFail "/home" "out" =
      (.err (.hsm .SelfCertGenFail),
       [.setCurrentDir "out/foo", .spawnConnector,
        .commandOutput "openssl req", .killConnector],
       "out/foo") :=
  ⟨(ca_init_connector_termination caEnvBase "/home" "out").2.1 rfl,
   (ca_init_connector_termination caEnvReqFail "/home" "out").2.2.1 fooRaw
     fooSpec { success := false, stderr := "req err" } rfl rfl rfl rfl rfl rfl
     rfl rfl rfl⟩

/-- C10: `ca_init` restores the saved original working directory only on
the success path; on every error exit the process is left either where it
started (when the error struck before the directory change) or in the
per-key CA directory `<out>/<label>` (on every error after the change —
the trace then shows exactly the one directory change, never the
restore). -/
theorem ca_init_cwd_restored_only_on_success (env : CaEnv)
    (cwd0 out : String) :
    ((ca_init env cwd0 out).1 = .ok () → (ca_init env cwd0 out).2.2 = cwd0) ∧
    (∀ e, (ca_init env cwd0 out).1 = .err e →
      (((ca_init env cwd0 out).2.1.filter Event.isSetCurrentDir = []) ∧
        (ca_init env cwd0 out).2.2 = cwd0) ∨
      (∃ raw spec, env.read_spec = .ok raw ∧
        KeySpec.from_str raw = .ok spec ∧
        (ca_init env cwd0 out).2.1.filter Event.isSetCurrentDir =
          [Event.setCurrentDir (out ++ "/" ++ spec.label.str)] ∧
        (ca_init env cwd0 out).2.2 = out ++ "/" ++ spec.label.str)) :=
  ⟨ca_init_ok_cwd env cwd0 out, ca_init_err_cwd env cwd0 out⟩

/-- Witness for C10: on the all-success environment the directory is
restored; on the environment whose first command fails with an I/O error
the process is left in the CA directory. -/
theorem ca_init_cwd_restored_only_on_success_witness :
    (ca_init caEnvBase "/home" "out").2.2 = "/home" ∧
    ((((ca_init caEnvReqIoErr "/home" "out").2.1.filter
          Event.isSetCurrentDir = []) ∧
        (ca_init caEnvReqIoErr "/home" "out").2.2 = "/home") ∨
      (∃ raw spec, caEnvReqIoErr.read_spec = .ok raw ∧
        KeySpec.from_str raw = .ok spec ∧
        (ca_init caEnvReqIoErr "/home" "out").2.1.filter
          Event.isSetCurrentDir =
          [Event.setCurrentDir ("out" ++ "/" ++ spec.label.str)] ∧
        (ca_init caEnvReqIoErr "/home" "out").2.2 =
          "out" ++ "/" ++ spec.label.str)) :=
  ⟨(ca_init_cwd_restored_only_on_success caEnvBase "/home" "out").1 rfl,
   (ca_init_cwd_restored_only_on_success caEnvReqIoErr "/home" "out").2
     (.io "pipe") rfl⟩

/-! ## The initialize ceremony: rotation before share display (C4) -/

/-- The password loop displays no share. -/
theorem passwordLoop_no_display (entries : List String) :
    (passwordLoop entries).2.filter Event.isDisplayShare = [] := by
  induction entries using passwordLoop.induct <;>
    simp_all [passwordLoop, Event.isDisplayShare]

/-- In no run of `personalize` (the auth-key rotation sequence) is any
share displayed. -/
theorem personalize_no_display (client : Client) (wrap_id : Nat)
    (out_dir : String) (fs : Fs) (pwEntries : List String) :
    (personalize client wrap_id out_dir fs pwEntries).2.1.filter
      Event.isDisplayShare = [] := by
  unfold personalize
  cases hpw : passwordLoop pwEntries with
  | mk pw tr0 =>
    have h0 : tr0.filter Event.isDisplayShare = [] := by
      have h1 := passwordLoop_no_display pwEntries
      rw [hpw] at h1
      exact h1
    simp only [hpw]
    cases hpa : client.put_authentication_key AUTH_ID AUTH_LABEL AUTH_DOMAINS
        AUTH_CAPS AUTH_DELEGATED (Key.derive_from_password pw) with
    | error e => simpa using h0
    | ok u =>
      simp only [hpa]
      cases hdo : client.delete_object DEFAULT_AUTHENTICATION_KEY_ID
          .AuthenticationKey with
      | error e => simp [List.filter_append, h0, Event.isDisplayShare]
      | ok u2 =>
        simp only [hdo]
        cases hex : client.export_wrapped wrap_id .AuthenticationKey AUTH_ID with
        | error e => simp [List.filter_append, h0, Event.isDisplayShare]
        | ok msg =>
          simp only [hex]
          cases hfw : fs.write (out_dir ++ "/" ++ AUTH_LABEL ++ ".json")
              msg.data with
          | error e => simp [List.filter_append, h0, Event.isDisplayShare]
          | ok fs2 => simp [List.filter_append, h0, Event.isDisplayShare]

/-- A completed display loop displays exactly its shares, consecutively
numbered from `num`, each exactly once and in order. -/
theorem displayLoop_ok_displays (shares : List String) :
    ∀ (num : Nat) (stdin : List String),
      (displayLoop num shares stdin).1 = .ok () →
      (displayLoop num shares stdin).2.1.filter Event.isDisplayShare =
        numberedShares num shares := by
  induction shares with
  | nil => intro num stdin _; simp [displayLoop, numberedShares]
  | cons share rest ih =>
    intro num stdin h
    cases stdin with
    | nil => simp [displayLoop] at h
    | cons l1 stdin1 =>
      cases stdin1 with
      | nil => simp [displayLoop] at h
      | cons l2 stdin2 =>
        simp only [displayLoop] at h ⊢
        cases hd : displayLoop (num + 1) rest stdin2 with
        | mk out rest2 =>
          obtain ⟨tr, stdinF⟩ := rest2
          have htr := ih (num + 1) stdin2 h
          rw [hd] at htr
          simp [Event.isDisplayShare, numberedShares, htr]

/-- C4: in every successful initialize run, the auth-key rotation sequence
(`personalize`) ran to completion after the wrap key was installed (its
events sit strictly between the wrap-key installation event and the share
displays, and contain no share display), the wrap-key bytes were split
only after it completed, and the display suffix then displays each of the
returned shares exactly once, sequentially in order 1..N, never twice. -/
theorem initialize_rotation_before_shares (client : Client) (out_dir : String)
    (fs : Fs) (pwEntries stdin : List String)
    (gen : Nat → Nat → List Nat → Except String (List String))
    (h : (initializeCeremony client out_dir fs pwEntries stdin gen).1 =
      .ok ()) :
    ∃ wrap_key label wid shares trP trD fs2,
      client.get_pseudo_random KEY_LEN = .ok wrap_key ∧
      Label.from_bytes LABEL = some label ∧
      client.put_wrap_key ID label DOMAIN CAPS DELEGATED_CAPS ALG wrap_key =
        .ok wid ∧
      personalize client wid out_dir fs pwEntries = (.ok (), trP, fs2) ∧
      gen THRESHOLD SHARES wrap_key = .ok shares ∧
      (initializeCeremony client out_dir fs pwEntries stdin gen).2.1 =
        [Event.getPseudoRandom KEY_LEN,
         Event.putWrapKey ID label DOMAIN CAPS DELEGATED_CAPS ALG wrap_key] ++
          trP ++ [Event.readLine, Event.clearScreen] ++ trD ∧
      trP.filter Event.isDisplayShare = [] ∧
      trD.filter Event.isDisplayShare = numberedShares 1 shares := by
  unfold initializeCeremony at h ⊢
  cases hg : client.get_pseudo_random KEY_LEN with
  | error e => rw [hg] at h; exact absurd h (by simp)
  | ok wrap_key =>
    simp only [hg] at h ⊢
    cases hl : Label.from_bytes LABEL with
    | none => simp only [hl] at h; exact absurd h (by simp)
    | some label =>
      simp only [hl] at h ⊢
      cases hw : client.put_wrap_key ID label DOMAIN CAPS DELEGATED_CAPS ALG
          wrap_key with
      | error e => simp only [hw] at h; exact absurd h (by simp)
      | ok wid =>
        simp only [hw] at h ⊢
        cases hp : personalize client wid out_dir fs pwEntries with
        | mk pout prest =>
          obtain ⟨trP, fs2⟩ := prest
          simp only [hp] at h ⊢
          cases pout with
          | err e => simp at h
          | panicked m => simp at h
          | exited c => simp at h
          | ok u =>
            obtain ⟨⟩ := u
            cases hgs : gen THRESHOLD SHARES wrap_key with
            | error e => simp only [hgs] at h; exact absurd h (by simp)
            | ok shares =>
              simp only [hgs] at h ⊢
              cases stdin with
              | nil => simp [wait_for_line] at h
              | cons l1 stdin1 =>
                simp only [wait_for_line] at h ⊢
                cases hd : displayLoop 1 shares stdin1 with
                | mk dout drest =>
                  obtain ⟨trD, stdinF⟩ := drest
                  simp only [hd] at h ⊢
                  have hfilter := displayLoop_ok_displays shares 1 stdin1
                  rw [hd] at hfilter
                  have hpfil := personalize_no_display client wid out_dir fs
                    pwEntries
                  rw [hp] at hpfil
                  refine ⟨wrap_key, label, wid, shares, trP, trD, fs2, rfl,
                    rfl, hw, hp, hgs, ?_, hpfil, hfilter (by exact h)⟩
                  simp

/-- Witness for C4: a fully successful concrete initialize run. -/
theorem initialize_rotation_before_shares_witness :
    (initializeCeremony allOkClient "out" fs0 ["pw", "pw"] stdin11
        okShares).1 = .ok () ∧
    (∃ wrap_key label wid shares trP trD fs2,
      allOkClient.get_pseudo_random KEY_LEN = .ok wrap_key ∧
      Label.from_bytes LABEL = some label ∧
      allOkClient.put_wrap_key ID label DOMAIN CAPS DELEGATED_CAPS ALG
        wrap_key = .ok wid ∧
      personalize allOkClient wid "out" fs0 ["pw", "pw"] =
        (.ok (), trP, fs2) ∧
      okShares THRESHOLD SHARES wrap_key = .ok shares ∧
      (initializeCeremony allOkClient "out" fs0 ["pw", "pw"] stdin11
          okShares).2.1 =
        [Event.getPseudoRandom KEY_LEN,
         Event.putWrapKey ID label DOMAIN CAPS DELEGATED_CAPS ALG wrap_key] ++
          trP ++ [Event.readLine, Event.clearScreen] ++ trD ∧
      trP.filter Event.isDisplayShare = [] ∧
      trD.filter Event.isDisplayShare = numberedShares 1 shares) :=
  ⟨rfl, initialize_rotation_before_shares allOkClient "out" fs0 ["pw", "pw"]
    stdin11 okShares rfl⟩

end YubihsmSplit
